import Mathlib

/-!
Verification development for the Creative Analysis & Risk-Scoring Engine
(`src/services/aiService.ts`).  The TypeScript functions are shallowly
embedded: JavaScript numbers are modelled as rationals (all arithmetic in
the analysed code stays well within the exactly-representable range of
IEEE doubles, so rational arithmetic is exact for it), `Math.round` as
`jround` (round half toward positive infinity, the JS semantics),
pixel buffers as lists of RGB triples, and the three remote exchanges of
`analyzeCreativeWithVision` as explicit outcome parameters whose thrown
errors propagate through an `Except` monad mirroring the `try`/`catch`
structure of the source.
-/

/-- JavaScript `Math.round`: round half toward positive infinity. -/
def jround (x : ℚ) : ℤ := ⌊x + 1 / 2⌋

/-- Variant of `Math.round` restricted to non-negative inputs, as a natural number.
All uses in the embedded code apply it to non-negative quantities. -/
def jroundN (x : ℚ) : ℕ := (jround x).toNat

/-- Structure `DesignMetrics` from `aiService.ts`: four numeric design scores.
Fields are rationals, as the remote path may supply arbitrary numbers. -/
structure DesignMetrics where
  compliance : ℚ
  attention : ℚ
  readability : ℚ
  brandConsistency : ℚ
deriving DecidableEq, Repr

/-- Structure `RiskAnalysis` from `aiService.ts`. -/
structure RiskAnalysis where
  score : ℤ
  label : String
  recommendation : String
  riskFactors : List String
deriving DecidableEq, Repr

/-- Function `calculateRiskScore` from `aiService.ts` (lines 245-276): average the
four metrics, round, subtract 5 per risk factor, clamp to [0,100], then
pick label and recommendation by inclusive lower-bound bands. -/
def calculateRiskScore (metrics : DesignMetrics) (riskFactors : List String) :
    RiskAnalysis :=
  let avgScore : ℤ := jround
    ((metrics.compliance + metrics.attention + metrics.readability +
      metrics.brandConsistency) / 4)
  let finalScore : ℤ := max 0 (min 100 (avgScore - riskFactors.length * 5))
  if finalScore ≥ 90 then
    { score := finalScore, label := "Excellent",
      recommendation := "Your creative is ready for submission with high confidence.",
      riskFactors := riskFactors }
  else if finalScore ≥ 75 then
    { score := finalScore, label := "Good",
      recommendation := "Your creative is likely to pass review. Consider applying remaining suggestions.",
      riskFactors := riskFactors }
  else if finalScore ≥ 60 then
    { score := finalScore, label := "Fair",
      recommendation := "Review and apply critical suggestions before submission.",
      riskFactors := riskFactors }
  else
    { score := finalScore, label := "Needs Work",
      recommendation := "Significant improvements needed. Apply all suggestions and re-validate.",
      riskFactors := riskFactors }

/-- The band table of the spec, with inclusive lower bounds:
`>=90` Excellent, `>=75` Good, `>=60` Fair, otherwise Needs Work. -/
def bandLabel (s : ℤ) : String :=
  if s ≥ 90 then "Excellent"
  else if s ≥ 75 then "Good"
  else if s ≥ 60 then "Fair"
  else "Needs Work"

/-- One RGBA pixel of the decoded canvas buffer; the alpha channel is
never read by the analysed loop, so only `r`, `g`, `b` are modelled.
Channels of a real decoded image lie in 0..255. -/
structure Pixel where
  r : ℕ
  g : ℕ
  b : ℕ
deriving DecidableEq, Repr

/-- Per-pixel brightness `(r + g + b) / 3` (line 314 of `aiService.ts`). -/
def pixelBrightness (p : Pixel) : ℚ := ((p.r : ℚ) + p.g + p.b) / 3

/-- The quantized color key added to `colorMap` (line 317): each channel is
bucketed by `Math.floor(channel / 50)`.  The source stores the string
`a,b,c`; decimal rendering joined by commas is injective on triples of
naturals, so the set of strings is modelled as the set of triples. -/
def quantColor (p : Pixel) : ℕ × ℕ × ℕ := (p.r / 50, p.g / 50, p.b / 50)

/-- Cardinality of `colorMap` after the pixel loop. -/
def colorMapSize (data : List Pixel) : ℕ := (data.map quantColor).toFinset.card

/-- The `darkPixels` counter: pixels with brightness strictly below 85. -/
def darkPixelCount (data : List Pixel) : ℕ :=
  data.countP fun p => decide (pixelBrightness p < 85)

/-- The `lightPixels` counter: pixels with brightness strictly above 170. -/
def lightPixelCount (data : List Pixel) : ℕ :=
  data.countP fun p => decide (pixelBrightness p > 170)

/-- The `ImageFeatureProfile` record resolved by
`analyzeImageCharacteristics`.  `textDensity` is stored unrounded by the
source, hence rational; the remaining numeric fields are produced by
`Math.round` / set cardinality and are naturals. -/
structure ImageFeatureProfile where
  hasText : Bool
  textDensity : ℚ
  colorCount : ℕ
  brightness : ℕ
  contrast : ℕ
  estimatedReadability : ℕ
deriving DecidableEq, Repr

/-- The fixed default profile substituted on any decode failure
(lines 340-349 and 351-361 of `aiService.ts`). -/
def defaultFeatureProfile : ImageFeatureProfile :=
  { hasText := true
    textDensity := 65
    colorCount := 120
    brightness := 128
    contrast := 45
    estimatedReadability := 75 }

/-- The `img.onload` branch of `analyzeImageCharacteristics`
(lines 295-338): one pass over the pixel buffer, then the derived fields. -/
def onloadProfile (data : List Pixel) : ImageFeatureProfile :=
  let totalPixels : ℕ := data.length
  let colorCount : ℕ := colorMapSize data
  let darkPixels : ℕ := darkPixelCount data
  let lightPixels : ℕ := lightPixelCount data
  let totalBrightness : ℚ := (data.map pixelBrightness).sum
  let avgBrightness : ℚ := totalBrightness / totalPixels
  let contrastRatio : ℚ := |(darkPixels : ℚ) - (lightPixels : ℚ)| / totalPixels
  let estimatedReadability : ℕ := min 100 (jroundN (contrastRatio * 150))
  { hasText := decide (colorCount > 10)
    textDensity := min 100 ((colorCount : ℚ) / 256 * 100)
    colorCount := min 256 colorCount
    brightness := jroundN avgBrightness
    contrast := jroundN (contrastRatio * 100)
    estimatedReadability := estimatedReadability }

/-- Outcome of decoding the base64 image in the browser: either the pixel
buffer of the decoded image, or the `img.onerror` path. -/
inductive DecodeOutcome where
  | success (data : List Pixel)
  | failure
deriving DecidableEq, Repr

/-- Function `analyzeImageCharacteristics` (lines 278-362): it always resolves —
a successful decode yields the one-pass profile, any failure yields the
fixed default profile. -/
def analyzeImageCharacteristics (d : DecodeOutcome) : ImageFeatureProfile :=
  match d with
  | .success data => onloadProfile data
  | .failure => defaultFeatureProfile

/-- The status union `pass | warning | fail` of a compliance check. -/
inductive CheckStatus where
  | pass
  | warning
  | fail
deriving DecidableEq, Repr

/-- Structure `ComplianceCheck` from `aiService.ts`. -/
structure ComplianceCheck where
  item : String
  status : CheckStatus
  details : String
deriving DecidableEq, Repr

/-- One heatmap zone of `HeatmapData`. -/
structure HeatmapZone where
  x : ℚ
  y : ℚ
  intensity : ℚ
  description : String
deriving DecidableEq, Repr

/-- Structure `HeatmapData` from `aiService.ts`. -/
structure HeatmapData where
  zones : List HeatmapZone
  focusAreas : List String
deriving DecidableEq, Repr

/-- The suggestion severity union `critical | warning | info`. -/
inductive Severity where
  | critical
  | warning
  | info
deriving DecidableEq, Repr

/-- The suggestion type union `ai | manual`. -/
inductive SuggestionType where
  | ai
  | manual
deriving DecidableEq, Repr

/-- A suggestion entry of `AIAnalysisResult`. -/
structure Suggestion where
  id : String
  type : SuggestionType
  category : String
  severity : Severity
  title : String
  description : String
deriving DecidableEq, Repr

/-- One placement simulation entry. -/
structure PlacementSimulation where
  context : String
  description : String
  recommendation : String
deriving DecidableEq, Repr

/-- Structure `AIAnalysisResult`, the top-level record returned to callers. -/
structure AIAnalysisResult where
  complianceChecks : List ComplianceCheck
  designMetrics : DesignMetrics
  heatmapData : HeatmapData
  riskAnalysis : RiskAnalysis
  suggestions : List Suggestion
  placementSimulations : List PlacementSimulation
deriving DecidableEq, Repr

/-- JavaScript `Number.prototype.toFixed(1)` for the non-negative values it
is applied to in the source: the digit count `n` closest to `10 * x`, ties
to the larger, rendered as integer part, a dot, and one decimal digit.
(The embedding formats the exact rational value of the expression.) -/
def toFixed1 (x : ℚ) : String :=
  let n : ℕ := jroundN (x * 10)
  toString (n / 10) ++ "." ++ toString (n % 10)

/-- Function `generateMockHeatmap` (lines 525-536): the fixed default heatmap. -/
def generateMockHeatmap : HeatmapData :=
  { zones :=
      [ { x := 50, y := 30, intensity := 95, description := "Primary headline - high attention" }
      , { x := 50, y := 60, intensity := 85, description := "Call-to-action button" }
      , { x := 20, y := 15, intensity := 75, description := "Brand logo" }
      , { x := 70, y := 50, intensity := 70, description := "Product image" }
      , { x := 50, y := 85, intensity := 40, description := "Fine print disclaimer" } ]
    focusAreas := ["Headline", "CTA Button", "Product Image"] }

/-- The `placements` list of `generateMockPlacements` (lines 538-558):
the fixed set of three default placement scenarios. -/
def mockPlacements : List PlacementSimulation :=
  [ { context := "Shelf Edge Display"
      description := "Creative appears on shelf edge at eye level with good visibility from 6-8 feet away"
      recommendation := "Ensure text is readable from distance; increase font size by 15% for optimal visibility" }
  , { context := "Endcap Placement"
      description := "High-traffic area with multiple viewing angles; creative competes with surrounding products"
      recommendation := "Increase color contrast and make CTA more prominent to stand out in busy environment" }
  , { context := "Digital Display"
      description := "Creative displayed on digital screen with bright backlighting and potential glare"
      recommendation := "Verify color accuracy on backlit displays; test with various lighting conditions" } ]

/-- Function `generateMockAnalysis` (lines 364-523), the Heuristic Metric
Synthesizer: maps the feature profile (or fixed defaults when absent,
mirroring the `?.` / `??` accesses) to metrics, checklist, suggestions and
an inline risk analysis, all without a remote call. -/
def generateMockAnalysis (imageAnalysis : Option ImageFeatureProfile) :
    AIAnalysisResult :=
  let readability : ℕ :=
    (imageAnalysis.map ImageFeatureProfile.estimatedReadability).getD 75
  let contrast : ℕ := (imageAnalysis.map ImageFeatureProfile.contrast).getD 45
  let colorCount : ℕ := (imageAnalysis.map ImageFeatureProfile.colorCount).getD 120
  let complianceScore : ℕ := min 100 (jroundN ((contrast : ℚ) * 1.5 + 30))
  let attentionScore : ℕ :=
    min 100 (jroundN ((colorCount : ℚ) / 256 * 100 * 0.7 + 40))
  let readabilityScore : ℕ := readability
  let brandScore : ℕ := min 100 (jroundN ((contrast : ℚ) * 1.2 + 40))
  let complianceChecks : List ComplianceCheck :=
    [ { item := "Brand logo placement"
        status := .pass
        details := "Logo is properly positioned and meets minimum size requirements" }
    , { item := "Text readability"
        status := if readabilityScore ≥ 70 then .pass else .warning
        details := "Text contrast ratio is " ++ toFixed1 ((contrast : ℚ) / 20 + 2) ++
          ":1 " ++ (if readabilityScore ≥ 70 then "(exceeds WCAG AA standards)"
            else "(below recommended standards)") }
    , { item := "Color contrast"
        status := if contrast ≥ 40 then .pass else .warning
        details := if contrast ≥ 40 then
            "All text elements meet WCAG AA accessibility standards"
          else "Improve color contrast for better accessibility" }
    , { item := "Dimension requirements"
        status := .pass
        details := "Creative dimensions match placement specifications" }
    , { item := "Legal disclaimers"
        status := .warning
        details := "Add fine print disclaimer for complete regulatory compliance" }
    , { item := "Call-to-action clarity"
        status := if contrast ≥ 35 then .pass else .warning
        details := if contrast ≥ 35 then
            "CTA button is clearly visible and actionable"
          else "Increase CTA button contrast for better visibility" } ]
  let contrastSuggestion : Suggestion :=
    if contrast < 40 then
      { id := "ai-1", type := .ai, category := "Compliance", severity := .critical
        title := "Improve Color Contrast"
        description := "Current contrast ratio is below WCAG AA standards. Increase the contrast between text and background colors to ensure readability for all users, especially in retail environments." }
    else if contrast < 50 then
      { id := "ai-1", type := .ai, category := "Compliance", severity := .warning
        title := "Enhance Color Contrast"
        description := "While meeting minimum standards, increasing contrast will improve visibility from distance and in various lighting conditions." }
    else
      { id := "ai-1", type := .ai, category := "Compliance", severity := .info
        title := "Maintain Color Contrast"
        description := "Your creative has excellent color contrast. Ensure this is maintained across all variations and displays." }
  let colorSuggestion : Suggestion :=
    if colorCount < 80 then
      { id := "ai-2", type := .ai, category := "Design", severity := .info
        title := "Add Visual Variety"
        description := "Consider adding more color elements or visual hierarchy to increase visual interest and engagement in retail environments." }
    else if colorCount > 180 then
      { id := "ai-2", type := .ai, category := "Design", severity := .warning
        title := "Simplify Color Palette"
        description := "Too many colors can be overwhelming. Reduce to 3-5 primary colors for better brand recognition and visual clarity." }
    else
      { id := "ai-2", type := .ai, category := "Design", severity := .info
        title := "Color Palette Optimization"
        description := "Your color palette is well-balanced. Ensure consistency across all brand materials." }
  let suggestions : List Suggestion :=
    [ contrastSuggestion
    , colorSuggestion
    , { id := "ai-3", type := .ai, category := "Optimization", severity := .info
        title := "Add Legal Disclaimer"
        description := "Include a small legal disclaimer (8-10pt) at the bottom of the creative to ensure complete regulatory compliance with retail advertising standards." }
    , { id := "ai-4", type := .ai, category := "Optimization", severity := .info
        title := "Test in Retail Environment"
        description := "Validate your creative in actual retail lighting conditions and from various viewing distances (6-8 feet) to ensure optimal visibility." } ]
  let riskScore : ℕ :=
    jroundN (((complianceScore + attentionScore + readabilityScore + brandScore : ℕ) : ℚ) / 4)
  { complianceChecks := complianceChecks
    designMetrics :=
      { compliance := complianceScore
        attention := attentionScore
        readability := readabilityScore
        brandConsistency := brandScore }
    heatmapData := generateMockHeatmap
    riskAnalysis :=
      { score := riskScore
        label := if riskScore ≥ 90 then "Excellent"
          else if riskScore ≥ 75 then "Good"
          else if riskScore ≥ 60 then "Fair"
          else "Needs Work"
        recommendation := if riskScore ≥ 90 then
            "Your creative demonstrates excellent compliance and design quality. Ready for immediate submission."
          else if riskScore ≥ 75 then
            "Your creative is likely to pass review. Consider applying remaining suggestions for optimization."
          else if riskScore ≥ 60 then
            "Review and apply critical suggestions before submission to improve compliance."
          else
            "Significant improvements needed. Apply all critical suggestions and re-validate before submission."
        riskFactors := if contrast < 40 then ["Low contrast"] else [] }
    suggestions := suggestions.take 4
    placementSimulations := mockPlacements }

/-- Outcome of one `fetch` exchange against the remote endpoint:
`reject` — the transport promise rejects (endpoint unreachable; `await`
re-throws); `notOk` — a response arrives with `response.ok` false;
`okBody none` — `response.ok` holds but `JSON.parse` of the payload throws;
`okBody (some a)` — `response.ok` holds and the payload parses to `a`. -/
inductive FetchOutcome (α : Type) where
  | reject
  | notOk
  | okBody (parsed : Option α)
deriving DecidableEq, Repr

/-- A raw suggestion object of the exchange-1 JSON, before the engine
re-tags it; `category` / `severity` may be absent (`s.category || ...`). -/
structure RemoteSuggestion where
  category : Option String
  severity : Option Severity
  title : String
  description : String
deriving DecidableEq, Repr

/-- The parsed exchange-1 payload (`analysisJson`).  `complianceChecks`
and `suggestions` may be absent, mirroring the `|| []` guards at lines
221 and 232; the embedding covers payloads whose `designMetrics` and
`riskFactors` fields are present (an absent `riskFactors` would throw at
line 217 and so reach the same catch-all fallback as a parse failure). -/
structure AnalysisPayload where
  complianceChecks : Option (List ComplianceCheck)
  designMetrics : DesignMetrics
  riskFactors : List String
  suggestions : Option (List RemoteSuggestion)
deriving DecidableEq, Repr

/-- The parsed exchange-3 payload (`placementData`); `placements` may be
absent, mirroring the `|| generateMockPlacements().placements` guard. -/
structure PlacementsPayload where
  placements : Option (List PlacementSimulation)
deriving DecidableEq, Repr

/-- The re-tagging of remote suggestions at lines 220-229: each entry
gets id `ai-<index>`, type `ai`, and the `|| 'General'` / `|| 'info'`
defaults. -/
def toAiSuggestions (ss : List RemoteSuggestion) : List Suggestion :=
  ss.enum.map fun pr =>
    { id := "ai-" ++ toString pr.1
      type := .ai
      category := pr.2.category.getD ("General")
      severity := pr.2.severity.getD .info
      title := pr.2.title
      description := pr.2.description }

/-- The heatmap-exchange step (lines 133-171): `heatmapResponse.ok ?
JSON.parse(...) : generateMockHeatmap()`.  A rejected fetch or a
`JSON.parse` failure is a thrown error (reaching the outer catch); a
non-success response yields the local default heatmap for this exchange
only. -/
def heatmapExchange (o2 : FetchOutcome HeatmapData) : Except Unit HeatmapData :=
  match o2 with
  | .reject => .error ()
  | .notOk => .ok generateMockHeatmap
  | .okBody none => .error ()
  | .okBody (some h) => .ok h

/-- The placement-exchange step (lines 174-214): `placementResponse.ok ?
JSON.parse(...) : generateMockPlacements()`, with a rejected fetch or a
`JSON.parse` failure thrown to the outer catch. -/
def placementExchange (o3 : FetchOutcome PlacementsPayload) :
    Except Unit PlacementsPayload :=
  match o3 with
  | .reject => .error ()
  | .notOk => .ok { placements := some mockPlacements }
  | .okBody none => .error ()
  | .okBody (some pd) => .ok pd

/-- The `try` block of `analyzeCreativeWithVision` (lines 74-238), with
a thrown JavaScript error modelled as `Except.error`.  Exchange 1: a
rejected fetch or a parse failure throws, while a non-success response
returns the local mock directly (line 125); on a parsed payload the two
remaining exchanges run and the remote analysis is assembled. -/
def visionTryBody (imageAnalysis : ImageFeatureProfile)
    (o1 : FetchOutcome AnalysisPayload) (o2 : FetchOutcome HeatmapData)
    (o3 : FetchOutcome PlacementsPayload) : Except Unit AIAnalysisResult :=
  match o1 with
  | .reject => .error ()
  | .notOk => .ok (generateMockAnalysis (some imageAnalysis))
  | .okBody none => .error ()
  | .okBody (some analysisJson) =>
    (heatmapExchange o2).bind fun heatmapData =>
      (placementExchange o3).bind fun placementData =>
        let riskScore : RiskAnalysis :=
          calculateRiskScore analysisJson.designMetrics analysisJson.riskFactors
        let allSuggestions : List Suggestion :=
          toAiSuggestions (analysisJson.suggestions.getD [])
        .ok
          { complianceChecks := analysisJson.complianceChecks.getD []
            designMetrics := analysisJson.designMetrics
            heatmapData := heatmapData
            riskAnalysis := riskScore
            suggestions := allSuggestions
            placementSimulations := placementData.placements.getD mockPlacements }

/-- Function `analyzeCreativeWithVision` (lines 64-243): the feature profile is
always computed first; without a configured key the local mock is
returned; otherwise the `try` block runs and any thrown error lands in
the catch, which returns the local mock of the same profile. -/
def analyzeCreativeWithVision (hasKey : Bool)
    (imageAnalysis : ImageFeatureProfile) (o1 : FetchOutcome AnalysisPayload)
    (o2 : FetchOutcome HeatmapData) (o3 : FetchOutcome PlacementsPayload) :
    AIAnalysisResult :=
  if hasKey = false then generateMockAnalysis (some imageAnalysis)
  else
    match visionTryBody imageAnalysis o1 o2 o3 with
    | .ok result => result
    | .error _ => generateMockAnalysis (some imageAnalysis)

/-- Outcome of `FileReader.readAsDataURL` on the supplied file: the base64
payload on `onload`, or the reader's error on `onerror`. -/
inductive ReadOutcome where
  | success (base64 : String)
  | failure (e : String)
deriving DecidableEq, Repr

/-- Function `analyzeCreative` (lines 560-587), the caller-facing entry point: a
file-read failure rejects with the reader's error; a successful read
resolves with the full analysis (whose internal failures are absorbed
inside `analyzeCreativeWithVision`). -/
def analyzeCreative (read : ReadOutcome) (decode : DecodeOutcome)
    (hasKey : Bool) (o1 : FetchOutcome AnalysisPayload)
    (o2 : FetchOutcome HeatmapData) (o3 : FetchOutcome PlacementsPayload) :
    Except String AIAnalysisResult :=
  match read with
  | .failure e => .error e
  | .success _ =>
    .ok (analyzeCreativeWithVision hasKey (analyzeImageCharacteristics decode)
      o1 o2 o3)

/-- The recommendation sentence `calculateRiskScore` emits for the band a
score falls in, as a function of the score. -/
def scorerRecommendation (s : ℤ) : String :=
  if s ≥ 90 then "Your creative is ready for submission with high confidence."
  else if s ≥ 75 then "Your creative is likely to pass review. Consider applying remaining suggestions."
  else if s ≥ 60 then "Review and apply critical suggestions before submission."
  else "Significant improvements needed. Apply all suggestions and re-validate."

/-- The recommendation sentence the local synthesizer path emits for the
band a score falls in (lines 510-517), as a function of the score. -/
def mockRecommendation (s : ℤ) : String :=
  if s ≥ 90 then "Your creative demonstrates excellent compliance and design quality. Ready for immediate submission."
  else if s ≥ 75 then "Your creative is likely to pass review. Consider applying remaining suggestions for optimization."
  else if s ≥ 60 then "Review and apply critical suggestions before submission to improve compliance."
  else "Significant improvements needed. Apply all critical suggestions and re-validate before submission."

/-- Spec formula for the synthesized compliance metric:
`min(100, round(contrast*1.5 + 30))`. -/
def mockComplianceScore (contrast : ℕ) : ℕ :=
  min 100 (jroundN ((contrast : ℚ) * 1.5 + 30))

/-- Spec formula for the synthesized attention metric:
`min(100, round((colorCount/256)*100*0.7 + 40))`. -/
def mockAttentionScore (colorCount : ℕ) : ℕ :=
  min 100 (jroundN ((colorCount : ℚ) / 256 * 100 * 0.7 + 40))

/-- Spec formula for the synthesized brand-consistency metric:
`min(100, round(contrast*1.2 + 40))`. -/
def mockBrandScore (contrast : ℕ) : ℕ :=
  min 100 (jroundN ((contrast : ℚ) * 1.2 + 40))

/-- The risk score the synthesizer path computes inline at line 496:
the rounded plain average of its four metrics. -/
def mockRiskScore (p : ImageFeatureProfile) : ℕ :=
  jroundN (((mockComplianceScore p.contrast + mockAttentionScore p.colorCount +
    p.estimatedReadability + mockBrandScore p.contrast : ℕ) : ℚ) / 4)

/-- A feature profile with contrast 10 (< 40, so the synthesizer reports
the `Low contrast` risk factor), colorCount 120 and readability 15;
exactly what the extractor would produce for a washed-out image. -/
def lowContrastProfile : ImageFeatureProfile :=
  { hasText := true
    textDensity := 46.875
    colorCount := 120
    brightness := 128
    contrast := 10
    estimatedReadability := 15 }

/-- A profile with an out-of-range contrast of 1000, as in the spec's
clamping property. -/
def hiContrastProfile : ImageFeatureProfile :=
  { hasText := true
    textDensity := 50
    colorCount := 120
    brightness := 128
    contrast := 1000
    estimatedReadability := 80 }

/-- An exchange outcome that throws inside the `try` block rather than
being substituted per-exchange: a rejected fetch, or an ok response whose
payload fails to parse. -/
def FetchOutcome.collapses {α : Type} : FetchOutcome α → Bool
  | .reject => true
  | .okBody none => true
  | _ => false

/-- A concrete successfully-parsed exchange-1 payload with a
recognizably remote checklist and metrics. -/
def remotePayloadCex : AnalysisPayload :=
  { complianceChecks := some
      [ { item := "Remote compliance check"
          status := .pass
          details := "supplied by the remote service" } ]
    designMetrics :=
      { compliance := 90
        attention := 90
        readability := 90
        brandConsistency := 90 }
    riskFactors := []
    suggestions := some [] }

/-- A 7-pixel image with 3 black and 4 mid-gray pixels: the contrast
ratio is 3/7, so the rounded `contrast` field is 43 while the
readability formula rounds the unrounded ratio. -/
def cexPixels : List Pixel :=
  [ { r := 0, g := 0, b := 0 }
  , { r := 0, g := 0, b := 0 }
  , { r := 0, g := 0, b := 0 }
  , { r := 128, g := 128, b := 128 }
  , { r := 128, g := 128, b := 128 }
  , { r := 128, g := 128, b := 128 }
  , { r := 128, g := 128, b := 128 } ]

/-- Lemma stating that `jroundN` agrees with `jround` on the non-negative inputs it is
applied to. -/
theorem jroundN_cast (x : ℚ) (h : 0 ≤ x) : ((jroundN x : ℕ) : ℤ) = jround x := by
  unfold jroundN
  exact Int.toNat_of_nonneg (Int.le_floor.mpr (by push_cast; linarith))

/-- Characterisation of `calculateRiskScore`: the clamp formula for the
score, band-consistent label and recommendation, and pass-through of the
risk-factor list. -/
theorem calculateRiskScore_spec (m : DesignMetrics) (rf : List String) :
    (calculateRiskScore m rf).score =
      max 0 (min 100 (jround ((m.compliance + m.attention + m.readability +
        m.brandConsistency) / 4) - rf.length * 5)) ∧
    (calculateRiskScore m rf).label = bandLabel (calculateRiskScore m rf).score ∧
    (calculateRiskScore m rf).recommendation =
      scorerRecommendation (calculateRiskScore m rf).score ∧
    (calculateRiskScore m rf).riskFactors = rf := by
  simp only [calculateRiskScore]
  set a : ℤ := jround ((m.compliance + m.attention + m.readability +
    m.brandConsistency) / 4) with ha
  simp only [bandLabel, scorerRecommendation]
  split_ifs with h1 h2 h3 <;> exact ⟨rfl, rfl, rfl, rfl⟩

/-- C1: for every `DesignMetrics` with each field in [0,100] and every
`riskFactors` list, `calculateRiskScore` returns
`score = clamp(round((compliance+attention+readability+brandConsistency)/4)
- 5*|riskFactors|, 0, 100)`, which lies in [0,100], and a label determined
solely by the band the score falls in, with inclusive lower bounds:
`>=90` Excellent, `>=75` Good, `>=60` Fair, otherwise Needs Work. -/
theorem C1_riskScorer_formula_and_banding (m : DesignMetrics)
    (rf : List String)
    (hc0 : 0 ≤ m.compliance) (hc1 : m.compliance ≤ 100)
    (ha0 : 0 ≤ m.attention) (ha1 : m.attention ≤ 100)
    (hr0 : 0 ≤ m.readability) (hr1 : m.readability ≤ 100)
    (hb0 : 0 ≤ m.brandConsistency) (hb1 : m.brandConsistency ≤ 100) :
    (calculateRiskScore m rf).score =
      max 0 (min 100 (jround ((m.compliance + m.attention + m.readability +
        m.brandConsistency) / 4) - 5 * rf.length)) ∧
    0 ≤ (calculateRiskScore m rf).score ∧
    (calculateRiskScore m rf).score ≤ 100 ∧
    (calculateRiskScore m rf).label = bandLabel (calculateRiskScore m rf).score := by
  obtain ⟨hs, hl, -, -⟩ := calculateRiskScore_spec m rf
  refine ⟨?_, ?_, ?_, hl⟩
  · rw [hs, mul_comm ((rf.length : ℤ)) 5]
  · rw [hs]
    exact le_max_left 0 _
  · rw [hs]
    exact max_le (by norm_num) (min_le_left 100 _)

/-- Witness for C1 at the spec's worked example:
`score({compliance:80, attention:80, readability:80, brandConsistency:80},
["Low contrast"])` satisfies the formula and banding, and concretely has
score 75 and label `Good`. -/
theorem C1_riskScorer_formula_and_banding_witness :
    ((0 : ℚ) ≤ 80 ∧ (80 : ℚ) ≤ 100) ∧
    ((calculateRiskScore
        { compliance := 80, attention := 80, readability := 80,
          brandConsistency := 80 } ["Low contrast"]).score =
      max 0 (min 100 (jround (((80 : ℚ) + 80 + 80 + 80) / 4) -
        5 * (["Low contrast"] : List String).length)) ∧
      0 ≤ (calculateRiskScore
        { compliance := 80, attention := 80, readability := 80,
          brandConsistency := 80 } ["Low contrast"]).score ∧
      (calculateRiskScore
        { compliance := 80, attention := 80, readability := 80,
          brandConsistency := 80 } ["Low contrast"]).score ≤ 100 ∧
      (calculateRiskScore
        { compliance := 80, attention := 80, readability := 80,
          brandConsistency := 80 } ["Low contrast"]).label =
        bandLabel (calculateRiskScore
          { compliance := 80, attention := 80, readability := 80,
            brandConsistency := 80 } ["Low contrast"]).score) ∧
    (calculateRiskScore
      { compliance := 80, attention := 80, readability := 80,
        brandConsistency := 80 } ["Low contrast"]).score = 75 ∧
    (calculateRiskScore
      { compliance := 80, attention := 80, readability := 80,
        brandConsistency := 80 } ["Low contrast"]).label = "Good" := by
  have h := C1_riskScorer_formula_and_banding
    { compliance := 80, attention := 80, readability := 80,
      brandConsistency := 80 } ["Low contrast"]
    (by norm_num) (by norm_num) (by norm_num) (by norm_num)
    (by norm_num) (by norm_num) (by norm_num) (by norm_num)
  have hscore : (calculateRiskScore
      { compliance := 80, attention := 80, readability := 80,
        brandConsistency := 80 } ["Low contrast"]).score = 75 := by
    rw [h.1]
    norm_num [jround]
  refine ⟨⟨by norm_num, by norm_num⟩, h, hscore, ?_⟩
  rw [h.2.2.2, hscore]
  rfl

/-- C9 (implicit): for every metrics value and every riskFactors list, the
`RiskAnalysis` returned by `calculateRiskScore` carries the `riskFactors`
argument through unchanged as its `riskFactors` field — scoring never
filters, reorders, or rewrites its elements. -/
theorem C9_riskFactors_passthrough (m : DesignMetrics) (rf : List String) :
    (calculateRiskScore m rf).riskFactors = rf :=
  (calculateRiskScore_spec m rf).2.2.2

theorem mock_designMetrics (p : ImageFeatureProfile) :
    (generateMockAnalysis (some p)).designMetrics =
      { compliance := (mockComplianceScore p.contrast : ℕ)
        attention := (mockAttentionScore p.colorCount : ℕ)
        readability := (p.estimatedReadability : ℕ)
        brandConsistency := (mockBrandScore p.contrast : ℕ) } := rfl

theorem mock_risk_score (p : ImageFeatureProfile) :
    (generateMockAnalysis (some p)).riskAnalysis.score = (mockRiskScore p : ℤ) := rfl

theorem mock_risk_label (p : ImageFeatureProfile) :
    (generateMockAnalysis (some p)).riskAnalysis.label =
      (if mockRiskScore p ≥ 90 then "Excellent"
        else if mockRiskScore p ≥ 75 then "Good"
        else if mockRiskScore p ≥ 60 then "Fair"
        else "Needs Work") := rfl

theorem mock_risk_recommendation (p : ImageFeatureProfile) :
    (generateMockAnalysis (some p)).riskAnalysis.recommendation =
      (if mockRiskScore p ≥ 90 then
          "Your creative demonstrates excellent compliance and design quality. Ready for immediate submission."
        else if mockRiskScore p ≥ 75 then
          "Your creative is likely to pass review. Consider applying remaining suggestions for optimization."
        else if mockRiskScore p ≥ 60 then
          "Review and apply critical suggestions before submission to improve compliance."
        else
          "Significant improvements needed. Apply all critical suggestions and re-validate before submission.") := rfl

theorem mock_risk_factors (p : ImageFeatureProfile) :
    (generateMockAnalysis (some p)).riskAnalysis.riskFactors =
      (if p.contrast < 40 then ["Low contrast"] else []) := rfl

/-- The inline natural-number band chain of the synthesizer agrees with
`bandLabel` on the cast score. -/
theorem inline_bandLabel (s : ℕ) :
    (if s ≥ 90 then "Excellent"
      else if s ≥ 75 then "Good"
      else if s ≥ 60 then "Fair"
      else "Needs Work") = bandLabel (s : ℤ) := by
  simp only [bandLabel]
  split_ifs <;> first | rfl | omega

/-- The inline recommendation chain of the synthesizer agrees with
`mockRecommendation` on the cast score. -/
theorem inline_mockRecommendation (s : ℕ) :
    (if s ≥ 90 then
        "Your creative demonstrates excellent compliance and design quality. Ready for immediate submission."
      else if s ≥ 75 then
        "Your creative is likely to pass review. Consider applying remaining suggestions for optimization."
      else if s ≥ 60 then
        "Review and apply critical suggestions before submission to improve compliance."
      else
        "Significant improvements needed. Apply all critical suggestions and re-validate before submission.") =
      mockRecommendation (s : ℤ) := by
  simp only [mockRecommendation]
  split_ifs <;> first | rfl | omega

/-- At every score, the synthesizer path's recommendation sentence differs
from the sentence `calculateRiskScore` emits for that band. -/
theorem mockRecommendation_ne_scorer (s : ℤ) :
    mockRecommendation s ≠ scorerRecommendation s := by
  simp only [mockRecommendation, scorerRecommendation]
  split_ifs <;> decide

/-- C2 (amended): on the no-remote-credential path, the riskAnalysis is
computed inline by the synthesizer, not by the Risk Scorer: its score is
the rounded plain average of the synthesized metrics with NO risk-factor
penalty and no clamp; its label is band-consistent; and its recommendation
comes from the synthesizer's own band-sentence table, which differs from
the sentence `calculateRiskScore` emits at the same score. -/
theorem C2_mock_path_risk_analysis (p : ImageFeatureProfile) :
    (generateMockAnalysis (some p)).riskAnalysis.score =
      jround (((generateMockAnalysis (some p)).designMetrics.compliance +
        (generateMockAnalysis (some p)).designMetrics.attention +
        (generateMockAnalysis (some p)).designMetrics.readability +
        (generateMockAnalysis (some p)).designMetrics.brandConsistency) / 4) ∧
    (generateMockAnalysis (some p)).riskAnalysis.label =
      bandLabel (generateMockAnalysis (some p)).riskAnalysis.score ∧
    (generateMockAnalysis (some p)).riskAnalysis.recommendation =
      mockRecommendation (generateMockAnalysis (some p)).riskAnalysis.score ∧
    (generateMockAnalysis (some p)).riskAnalysis.recommendation ≠
      scorerRecommendation (generateMockAnalysis (some p)).riskAnalysis.score := by
  refine ⟨?_, ?_, ?_, ?_⟩
  · rw [mock_risk_score, mock_designMetrics]
    show (mockRiskScore p : ℤ) = jround (((mockComplianceScore p.contrast : ℚ) +
      (mockAttentionScore p.colorCount : ℚ) + (p.estimatedReadability : ℚ) +
      (mockBrandScore p.contrast : ℚ)) / 4)
    unfold mockRiskScore
    rw [jroundN_cast _ (by positivity)]
    congr 1
    push_cast
    ring
  · rw [mock_risk_label, inline_bandLabel, mock_risk_score]
  · rw [mock_risk_recommendation, inline_mockRecommendation, mock_risk_score]
  · rw [mock_risk_recommendation, inline_mockRecommendation, mock_risk_score]
    exact mockRecommendation_ne_scorer _

theorem lowContrast_compliance :
    mockComplianceScore lowContrastProfile.contrast = 45 := by
  norm_num [lowContrastProfile, mockComplianceScore, jroundN, jround]
  rfl

theorem lowContrast_attention :
    mockAttentionScore lowContrastProfile.colorCount = 73 := by
  norm_num [lowContrastProfile, mockAttentionScore, jroundN, jround]
  rfl

theorem lowContrast_brand :
    mockBrandScore lowContrastProfile.contrast = 52 := by
  norm_num [lowContrastProfile, mockBrandScore, jroundN, jround]
  rfl

theorem lowContrast_riskScore : mockRiskScore lowContrastProfile = 46 := by
  unfold mockRiskScore
  rw [lowContrast_compliance, lowContrast_attention, lowContrast_brand]
  norm_num [lowContrastProfile, jroundN, jround]
  rfl

/-- C2 counterexample: at a low-contrast profile the no-credential path
synthesizes the risk factor `Low contrast`, yet its score is 46 — the
plain rounded average — while the claimed Risk-Scorer clamp formula over
the same metrics and risk factors yields 41 (the 5-point penalty is never
subtracted on this path), and its recommendation is not the sentence
`calculateRiskScore` emits for these metrics and risk factors. -/
theorem C2_mock_path_not_risk_scorer_cex :
    (generateMockAnalysis (some lowContrastProfile)).riskAnalysis.riskFactors =
      ["Low contrast"] ∧
    (generateMockAnalysis (some lowContrastProfile)).riskAnalysis.score = 46 ∧
    max 0 (min 100
      (jround (((generateMockAnalysis (some lowContrastProfile)).designMetrics.compliance +
        (generateMockAnalysis (some lowContrastProfile)).designMetrics.attention +
        (generateMockAnalysis (some lowContrastProfile)).designMetrics.readability +
        (generateMockAnalysis (some lowContrastProfile)).designMetrics.brandConsistency) / 4) -
        5 * ((generateMockAnalysis (some lowContrastProfile)).riskAnalysis.riskFactors.length : ℤ))) = 41 ∧
    (generateMockAnalysis (some lowContrastProfile)).riskAnalysis.recommendation ≠
      (calculateRiskScore
        (generateMockAnalysis (some lowContrastProfile)).designMetrics
        (generateMockAnalysis (some lowContrastProfile)).riskAnalysis.riskFactors).recommendation := by
  have hrf : (generateMockAnalysis (some lowContrastProfile)).riskAnalysis.riskFactors =
      ["Low contrast"] := by
    rw [mock_risk_factors]
    norm_num [lowContrastProfile]
  have havg : jround (((generateMockAnalysis (some lowContrastProfile)).designMetrics.compliance +
      (generateMockAnalysis (some lowContrastProfile)).designMetrics.attention +
      (generateMockAnalysis (some lowContrastProfile)).designMetrics.readability +
      (generateMockAnalysis (some lowContrastProfile)).designMetrics.brandConsistency) / 4) = 46 := by
    rw [mock_designMetrics]
    show jround (((mockComplianceScore lowContrastProfile.contrast : ℚ) +
      (mockAttentionScore lowContrastProfile.colorCount : ℚ) +
      (lowContrastProfile.estimatedReadability : ℚ) +
      (mockBrandScore lowContrastProfile.contrast : ℚ)) / 4) = 46
    rw [lowContrast_compliance, lowContrast_attention, lowContrast_brand]
    norm_num [lowContrastProfile, jround]
  have hscore : (generateMockAnalysis (some lowContrastProfile)).riskAnalysis.score = 46 := by
    rw [mock_risk_score, lowContrast_riskScore]
    rfl
  refine ⟨hrf, hscore, ?_, ?_⟩
  · rw [havg, hrf]
    norm_num
  · have hrec := (calculateRiskScore_spec
      (generateMockAnalysis (some lowContrastProfile)).designMetrics
      (generateMockAnalysis (some lowContrastProfile)).riskAnalysis.riskFactors).2.2.1
    have hsc := (calculateRiskScore_spec
      (generateMockAnalysis (some lowContrastProfile)).designMetrics
      (generateMockAnalysis (some lowContrastProfile)).riskAnalysis.riskFactors).1
    rw [hrec, hsc, hrf, havg]
    rw [mock_risk_recommendation, inline_mockRecommendation, lowContrast_riskScore]
    norm_num [scorerRecommendation, mockRecommendation]
    decide

theorem mock_complianceChecks (p : ImageFeatureProfile) :
    (generateMockAnalysis (some p)).complianceChecks =
      [ { item := "Brand logo placement"
          status := .pass
          details := "Logo is properly positioned and meets minimum size requirements" }
      , { item := "Text readability"
          status := if p.estimatedReadability ≥ 70 then .pass else .warning
          details := "Text contrast ratio is " ++ toFixed1 ((p.contrast : ℚ) / 20 + 2) ++
            ":1 " ++ (if p.estimatedReadability ≥ 70 then "(exceeds WCAG AA standards)"
              else "(below recommended standards)") }
      , { item := "Color contrast"
          status := if p.contrast ≥ 40 then .pass else .warning
          details := if p.contrast ≥ 40 then
              "All text elements meet WCAG AA accessibility standards"
            else "Improve color contrast for better accessibility" }
      , { item := "Dimension requirements"
          status := .pass
          details := "Creative dimensions match placement specifications" }
      , { item := "Legal disclaimers"
          status := .warning
          details := "Add fine print disclaimer for complete regulatory compliance" }
      , { item := "Call-to-action clarity"
          status := if p.contrast ≥ 35 then .pass else .warning
          details := if p.contrast ≥ 35 then
              "CTA button is clearly visible and actionable"
            else "Increase CTA button contrast for better visibility" } ] := rfl

theorem mock_heatmap (p : ImageFeatureProfile) :
    (generateMockAnalysis (some p)).heatmapData = generateMockHeatmap := rfl

theorem mock_placementSimulations (p : ImageFeatureProfile) :
    (generateMockAnalysis (some p)).placementSimulations = mockPlacements := rfl

theorem vision_noKey (p : ImageFeatureProfile) (o1 : FetchOutcome AnalysisPayload)
    (o2 : FetchOutcome HeatmapData) (o3 : FetchOutcome PlacementsPayload) :
    analyzeCreativeWithVision false p o1 o2 o3 = generateMockAnalysis (some p) := rfl

theorem vision_reject1 (p : ImageFeatureProfile) (o2 : FetchOutcome HeatmapData)
    (o3 : FetchOutcome PlacementsPayload) :
    analyzeCreativeWithVision true p .reject o2 o3 = generateMockAnalysis (some p) := rfl

/-- C5: for every `ImageFeatureProfile` given to the synthesizer —
including out-of-range inputs such as `contrast = 1000` — the produced
`designMetrics` satisfy the four spec formulas, the three min-clamped
metrics are at most 100 (readability is a plain pass-through, so it is
bounded by 100 exactly when the profile field is, as the extractor's
own clamp guarantees), and the risk factors are `["Low contrast"]`
exactly when `contrast < 40`. -/
theorem C5_synthesizer_metric_formulas (p : ImageFeatureProfile) :
    (generateMockAnalysis (some p)).designMetrics.compliance =
      ((min 100 (jroundN ((p.contrast : ℚ) * 1.5 + 30)) : ℕ) : ℚ) ∧
    (generateMockAnalysis (some p)).designMetrics.attention =
      ((min 100 (jroundN ((p.colorCount : ℚ) / 256 * 100 * 0.7 + 40)) : ℕ) : ℚ) ∧
    (generateMockAnalysis (some p)).designMetrics.readability =
      (p.estimatedReadability : ℚ) ∧
    (generateMockAnalysis (some p)).designMetrics.brandConsistency =
      ((min 100 (jroundN ((p.contrast : ℚ) * 1.2 + 40)) : ℕ) : ℚ) ∧
    (generateMockAnalysis (some p)).designMetrics.compliance ≤ 100 ∧
    (generateMockAnalysis (some p)).designMetrics.attention ≤ 100 ∧
    (generateMockAnalysis (some p)).designMetrics.brandConsistency ≤ 100 ∧
    (p.estimatedReadability ≤ 100 →
      (generateMockAnalysis (some p)).designMetrics.readability ≤ 100) ∧
    (generateMockAnalysis (some p)).riskAnalysis.riskFactors =
      (if p.contrast < 40 then ["Low contrast"] else []) := by
  refine ⟨rfl, rfl, rfl, rfl, ?_, ?_, ?_, ?_, mock_risk_factors p⟩
  · show ((min 100 (jroundN ((p.contrast : ℚ) * 1.5 + 30)) : ℕ) : ℚ) ≤ 100
    exact_mod_cast min_le_left 100 _
  · show ((min 100 (jroundN ((p.colorCount : ℚ) / 256 * 100 * 0.7 + 40)) : ℕ) : ℚ) ≤ 100
    exact_mod_cast min_le_left 100 _
  · show ((min 100 (jroundN ((p.contrast : ℚ) * 1.2 + 40)) : ℕ) : ℚ) ≤ 100
    exact_mod_cast min_le_left 100 _
  · intro h
    show ((p.estimatedReadability : ℕ) : ℚ) ≤ 100
    exact_mod_cast h

/-- Witness for C5 at `contrast = 1000`: the metric formulas and bounds
hold, and no `Low contrast` risk factor is reported. -/
theorem C5_synthesizer_metric_formulas_witness :
    hiContrastProfile.estimatedReadability ≤ 100 ∧
    (generateMockAnalysis (some hiContrastProfile)).designMetrics.compliance ≤ 100 ∧
    (generateMockAnalysis (some hiContrastProfile)).designMetrics.readability ≤ 100 ∧
    (generateMockAnalysis (some hiContrastProfile)).riskAnalysis.riskFactors = [] := by
  obtain ⟨-, -, -, -, hb1, -, -, hbr, hrf⟩ :=
    C5_synthesizer_metric_formulas hiContrastProfile
  refine ⟨by decide, hb1, hbr (by decide), ?_⟩
  rw [hrf]
  norm_num [hiContrastProfile]

/-- C6: whenever the remote endpoint is unreachable (the first fetch
rejects) or no credential is configured, the analysis still resolves with
a result whose compliance checklist is non-empty, whose heatmap zones are
exactly the 5 default zone entries, and whose placement simulations have
exactly 3 entries. -/
theorem C6_fallback_completeness (p : ImageFeatureProfile)
    (o1 : FetchOutcome AnalysisPayload) (o2 : FetchOutcome HeatmapData)
    (o3 : FetchOutcome PlacementsPayload) :
    ((analyzeCreativeWithVision false p o1 o2 o3).complianceChecks ≠ [] ∧
     (analyzeCreativeWithVision false p o1 o2 o3).heatmapData.zones =
       generateMockHeatmap.zones ∧
     (analyzeCreativeWithVision false p o1 o2 o3).heatmapData.zones.length = 5 ∧
     (analyzeCreativeWithVision false p o1 o2 o3).placementSimulations.length = 3) ∧
    ((analyzeCreativeWithVision true p .reject o2 o3).complianceChecks ≠ [] ∧
     (analyzeCreativeWithVision true p .reject o2 o3).heatmapData.zones =
       generateMockHeatmap.zones ∧
     (analyzeCreativeWithVision true p .reject o2 o3).heatmapData.zones.length = 5 ∧
     (analyzeCreativeWithVision true p .reject o2 o3).placementSimulations.length = 3) := by
  have hne : (generateMockAnalysis (some p)).complianceChecks ≠ [] := by
    rw [mock_complianceChecks]
    simp
  refine ⟨⟨?_, ?_, ?_, ?_⟩, ⟨?_, ?_, ?_, ?_⟩⟩
  · rw [vision_noKey]
    exact hne
  · rw [vision_noKey, mock_heatmap]
  · rw [vision_noKey, mock_heatmap]
    rfl
  · rw [vision_noKey, mock_placementSimulations]
    rfl
  · rw [vision_reject1]
    exact hne
  · rw [vision_reject1, mock_heatmap]
  · rw [vision_reject1, mock_heatmap]
    rfl
  · rw [vision_reject1, mock_placementSimulations]
    rfl

/-- C7: for every profile, the synthesizer emits exactly the six
compliance checks, in the fixed order logo placement, text readability,
color contrast, dimension requirements, legal disclaimers,
call-to-action clarity; logo and dimension checks always pass, the
text-readability status is `pass` iff `readability >= 70` with the
synthesized ratio `(contrast/20 + 2)` rendered to one decimal place in
its details, the color-contrast status is `pass` iff `contrast >= 40`,
the legal-disclaimer check always warns, and the CTA-clarity status is
`pass` iff `contrast >= 35`. -/
theorem C7_synthesizer_checklist (p : ImageFeatureProfile) :
    (generateMockAnalysis (some p)).complianceChecks =
      [ { item := "Brand logo placement"
          status := .pass
          details := "Logo is properly positioned and meets minimum size requirements" }
      , { item := "Text readability"
          status := if p.estimatedReadability ≥ 70 then .pass else .warning
          details := "Text contrast ratio is " ++ toFixed1 ((p.contrast : ℚ) / 20 + 2) ++
            ":1 " ++ (if p.estimatedReadability ≥ 70 then "(exceeds WCAG AA standards)"
              else "(below recommended standards)") }
      , { item := "Color contrast"
          status := if p.contrast ≥ 40 then .pass else .warning
          details := if p.contrast ≥ 40 then
              "All text elements meet WCAG AA accessibility standards"
            else "Improve color contrast for better accessibility" }
      , { item := "Dimension requirements"
          status := .pass
          details := "Creative dimensions match placement specifications" }
      , { item := "Legal disclaimers"
          status := .warning
          details := "Add fine print disclaimer for complete regulatory compliance" }
      , { item := "Call-to-action clarity"
          status := if p.contrast ≥ 35 then .pass else .warning
          details := if p.contrast ≥ 35 then
              "CTA button is clearly visible and actionable"
            else "Increase CTA button contrast for better visibility" } ] ∧
    (generateMockAnalysis (some p)).complianceChecks.length = 6 :=
  ⟨mock_complianceChecks p, by rw [mock_complianceChecks]; rfl⟩

/-- C8: the caller-facing entry point rejects exactly when the supplied
file cannot be read, and then with the reader's own error; on every
successfully read input it resolves with a complete result, whatever the
decode and remote outcomes are. -/
theorem C8_resolves_unless_read_fails :
    (∀ (e : String) (d : DecodeOutcome) (k : Bool)
      (o1 : FetchOutcome AnalysisPayload) (o2 : FetchOutcome HeatmapData)
      (o3 : FetchOutcome PlacementsPayload),
      analyzeCreative (.failure e) d k o1 o2 o3 = .error e) ∧
    (∀ (b : String) (d : DecodeOutcome) (k : Bool)
      (o1 : FetchOutcome AnalysisPayload) (o2 : FetchOutcome HeatmapData)
      (o3 : FetchOutcome PlacementsPayload),
      ∃ r : AIAnalysisResult, analyzeCreative (.success b) d k o1 o2 o3 = .ok r) :=
  ⟨fun _ _ _ _ _ _ => rfl, fun b d k o1 o2 o3 =>
    ⟨analyzeCreativeWithVision k (analyzeImageCharacteristics d) o1 o2 o3, rfl⟩⟩

/-- C3 (amended): when exchange 1 succeeds, a NON-SUCCESS heatmap
response (and a non-throwing placement exchange) yields the partial
fallback the claim describes — remote `complianceChecks`/`designMetrics`,
default heatmap; but a heatmap outcome that throws (a rejected fetch, or
an ok response with malformed JSON) collapses the whole analysis to the
local fallback. -/
theorem C3_heatmap_partial_fallback (p : ImageFeatureProfile)
    (aj : AnalysisPayload) (o2 : FetchOutcome HeatmapData)
    (o3 : FetchOutcome PlacementsPayload)
    (h3 : o3.collapses = false) :
    ((analyzeCreativeWithVision true p (.okBody (some aj)) .notOk o3).complianceChecks =
      aj.complianceChecks.getD [] ∧
    (analyzeCreativeWithVision true p (.okBody (some aj)) .notOk o3).designMetrics =
      aj.designMetrics ∧
    (analyzeCreativeWithVision true p (.okBody (some aj)) .notOk o3).heatmapData =
      generateMockHeatmap) ∧
    (o2.collapses = true →
      analyzeCreativeWithVision true p (.okBody (some aj)) o2 o3 =
        generateMockAnalysis (some p)) := by
  constructor
  · rcases o3 with _ | _ | po3
    · simp [FetchOutcome.collapses] at h3
    · exact ⟨rfl, rfl, rfl⟩
    · rcases po3 with _ | pd
      · simp [FetchOutcome.collapses] at h3
      · exact ⟨rfl, rfl, rfl⟩
  · intro h2
    rcases o2 with _ | _ | ho2
    · rfl
    · simp [FetchOutcome.collapses] at h2
    · rcases ho2 with _ | h
      · rfl
      · simp [FetchOutcome.collapses] at h2

/-- Witness for C3 (amended) at `remotePayloadCex`: a non-success heatmap
response keeps the remote checklist and metrics while the heatmap falls
back, and an ok-but-malformed heatmap response collapses everything to
the local fallback. -/
theorem C3_heatmap_partial_fallback_witness :
    ((FetchOutcome.notOk : FetchOutcome PlacementsPayload).collapses = false) ∧
    ((analyzeCreativeWithVision true defaultFeatureProfile
        (.okBody (some remotePayloadCex)) .notOk .notOk).complianceChecks =
      remotePayloadCex.complianceChecks.getD [] ∧
    (analyzeCreativeWithVision true defaultFeatureProfile
        (.okBody (some remotePayloadCex)) .notOk .notOk).designMetrics =
      remotePayloadCex.designMetrics ∧
    (analyzeCreativeWithVision true defaultFeatureProfile
        (.okBody (some remotePayloadCex)) .notOk .notOk).heatmapData =
      generateMockHeatmap) ∧
    (((FetchOutcome.okBody (none : Option HeatmapData)).collapses = true) →
      analyzeCreativeWithVision true defaultFeatureProfile
        (.okBody (some remotePayloadCex)) (.okBody none) .notOk =
        generateMockAnalysis (some defaultFeatureProfile)) := by
  have h := C3_heatmap_partial_fallback defaultFeatureProfile remotePayloadCex
    (.okBody none) .notOk (by decide)
  exact ⟨by decide, h.1, h.2⟩

theorem default_profile_compliance :
    mockComplianceScore defaultFeatureProfile.contrast = 98 := by
  norm_num [defaultFeatureProfile, mockComplianceScore, jroundN, jround]
  rfl

/-- C3 counterexample: exchange 1 succeeds with a remote payload, the
heatmap exchange fails by an ok response whose payload does not parse —
and the returned checklist and metrics are NOT the remote ones: the whole
analysis collapses to the local fallback. -/
theorem C3_malformed_heatmap_collapses_cex :
    (analyzeCreativeWithVision true defaultFeatureProfile
        (.okBody (some remotePayloadCex)) (.okBody none) .notOk).complianceChecks ≠
      remotePayloadCex.complianceChecks.getD [] ∧
    (analyzeCreativeWithVision true defaultFeatureProfile
        (.okBody (some remotePayloadCex)) (.okBody none) .notOk).designMetrics ≠
      remotePayloadCex.designMetrics ∧
    analyzeCreativeWithVision true defaultFeatureProfile
        (.okBody (some remotePayloadCex)) (.okBody none) .notOk =
      generateMockAnalysis (some defaultFeatureProfile) := by
  have hres : analyzeCreativeWithVision true defaultFeatureProfile
      (.okBody (some remotePayloadCex)) (.okBody none) .notOk =
      generateMockAnalysis (some defaultFeatureProfile) := rfl
  refine ⟨?_, ?_, hres⟩
  · rw [hres, mock_complianceChecks]
    intro hEq
    have hlen := congrArg List.length hEq
    simp [remotePayloadCex] at hlen
  · rw [hres, mock_designMetrics]
    intro hEq
    have hc := congrArg DesignMetrics.compliance hEq
    rw [default_profile_compliance] at hc
    simp [remotePayloadCex] at hc

/-- The dark-pixel test `(r+g+b)/3 < 85` is the integer test
`r+g+b < 255`. -/
theorem decide_dark (p : Pixel) :
    decide (pixelBrightness p < 85) = decide (p.r + p.g + p.b < 255) := by
  rw [decide_eq_decide]
  unfold pixelBrightness
  rw [div_lt_iff (by norm_num : (0 : ℚ) < 3)]
  constructor
  · intro h
    exact_mod_cast h
  · intro h
    exact_mod_cast h

/-- The light-pixel test `(r+g+b)/3 > 170` is the integer test
`r+g+b > 510`. -/
theorem decide_light (p : Pixel) :
    decide (pixelBrightness p > 170) = decide (510 < p.r + p.g + p.b) := by
  rw [decide_eq_decide]
  unfold pixelBrightness
  rw [gt_iff_lt, lt_div_iff (by norm_num : (0 : ℚ) < 3)]
  constructor
  · intro h
    exact_mod_cast h
  · intro h
    exact_mod_cast h

theorem darkPixelCount_eq (data : List Pixel) :
    darkPixelCount data = data.countP fun p => decide (p.r + p.g + p.b < 255) := by
  unfold darkPixelCount
  simp only [decide_dark]

theorem lightPixelCount_eq (data : List Pixel) :
    lightPixelCount data = data.countP fun p => decide (510 < p.r + p.g + p.b) := by
  unfold lightPixelCount
  simp only [decide_light]

theorem onload_contrast (data : List Pixel) :
    (onloadProfile data).contrast =
      jroundN (|(darkPixelCount data : ℚ) - (lightPixelCount data : ℚ)| /
        (data.length : ℚ) * 100) := rfl

theorem onload_readability (data : List Pixel) :
    (onloadProfile data).estimatedReadability =
      min 100 (jroundN (|(darkPixelCount data : ℚ) - (lightPixelCount data : ℚ)| /
        (data.length : ℚ) * 150)) := rfl

/-- C4 (amended): for every non-empty decoded pixel buffer, the profile's
`estimatedReadability` is `min(100, round(contrastRatio * 150))` computed
from the UNROUNDED ratio `contrastRatio = |darkPixels - lightPixels| /
totalPixels` — not from the profile's rounded `contrast` field — while
the `contrast` field itself is `round(100 * contrastRatio)`;
`darkPixels` counts pixels of brightness `(r+g+b)/3` below 85 and
`lightPixels` those above 170. -/
theorem C4_extractor_contrast_and_readability (data : List Pixel)
    (h : data ≠ []) :
    (onloadProfile data).contrast =
      jroundN (|(darkPixelCount data : ℚ) - (lightPixelCount data : ℚ)| /
        (data.length : ℚ) * 100) ∧
    (onloadProfile data).estimatedReadability =
      min 100 (jroundN (|(darkPixelCount data : ℚ) - (lightPixelCount data : ℚ)| /
        (data.length : ℚ) * 150)) ∧
    darkPixelCount data =
      data.countP (fun p => decide (pixelBrightness p < 85)) ∧
    lightPixelCount data =
      data.countP (fun p => decide (pixelBrightness p > 170)) :=
  ⟨onload_contrast data, onload_readability data, rfl, rfl⟩

/-- Witness for C4 (amended) at the concrete 7-pixel image. -/
theorem C4_extractor_contrast_and_readability_witness :
    cexPixels ≠ [] ∧
    ((onloadProfile cexPixels).contrast =
      jroundN (|(darkPixelCount cexPixels : ℚ) - (lightPixelCount cexPixels : ℚ)| /
        (cexPixels.length : ℚ) * 100) ∧
    (onloadProfile cexPixels).estimatedReadability =
      min 100 (jroundN (|(darkPixelCount cexPixels : ℚ) - (lightPixelCount cexPixels : ℚ)| /
        (cexPixels.length : ℚ) * 150)) ∧
    darkPixelCount cexPixels =
      cexPixels.countP (fun p => decide (pixelBrightness p < 85)) ∧
    lightPixelCount cexPixels =
      cexPixels.countP (fun p => decide (pixelBrightness p > 170))) :=
  ⟨by decide, C4_extractor_contrast_and_readability cexPixels (by decide)⟩

/-- C4 counterexample: on the 7-pixel image the profile's contrast field
is 43 and its `estimatedReadability` is 64, while the claimed formula
`min(100, round(contrast * 1.5))` over the returned contrast field gives
65 — the readability is computed from the unrounded ratio, not from the
rounded field. -/
theorem C4_readability_not_from_rounded_contrast_cex :
    (analyzeImageCharacteristics (.success cexPixels)).contrast = 43 ∧
    (analyzeImageCharacteristics (.success cexPixels)).estimatedReadability = 64 ∧
    min 100 (jroundN
      (((analyzeImageCharacteristics (.success cexPixels)).contrast : ℚ) * 1.5)) = 65 ∧
    (analyzeImageCharacteristics (.success cexPixels)).estimatedReadability ≠
      min 100 (jroundN
        (((analyzeImageCharacteristics (.success cexPixels)).contrast : ℚ) * 1.5)) := by
  have hd : darkPixelCount cexPixels = 3 := by
    rw [darkPixelCount_eq]
    rfl
  have hl : lightPixelCount cexPixels = 0 := by
    rw [lightPixelCount_eq]
    rfl
  have hc : (analyzeImageCharacteristics (.success cexPixels)).contrast = 43 := by
    show (onloadProfile cexPixels).contrast = 43
    rw [onload_contrast, hd, hl]
    norm_num [cexPixels, jroundN, jround]
    rfl
  have hr : (analyzeImageCharacteristics (.success cexPixels)).estimatedReadability = 64 := by
    show (onloadProfile cexPixels).estimatedReadability = 64
    rw [onload_readability, hd, hl]
    norm_num [cexPixels, jroundN, jround]
    rfl
  have hclaim : min 100 (jroundN
      (((analyzeImageCharacteristics (.success cexPixels)).contrast : ℚ) * 1.5)) = 65 := by
    rw [hc]
    norm_num [jroundN, jround]
    rfl
  refine ⟨hc, hr, hclaim, ?_⟩
  rw [hr, hclaim]
  decide

/-- C10 (implicit): for every buffer of 8-bit pixels, the quantized color
set has at most `6 * 6 * 6 = 216` elements, so the extracted `colorCount`
never exceeds 216 and its clamp to 256 is never active, and `textDensity`
is the unclamped value `(colorCount / 256) * 100`, which never exceeds
84.375, so its `min(100, ...)` clamp is never active either. -/
theorem C10_quantized_color_bound (data : List Pixel)
    (h : ∀ p ∈ data, p.r ≤ 255 ∧ p.g ≤ 255 ∧ p.b ≤ 255) :
    colorMapSize data ≤ 216 ∧
    (onloadProfile data).colorCount = colorMapSize data ∧
    (onloadProfile data).textDensity = (colorMapSize data : ℚ) / 256 * 100 ∧
    (onloadProfile data).textDensity ≤ 84.375 := by
  have hsub : (data.map quantColor).toFinset ⊆
      Finset.range 6 ×ˢ (Finset.range 6 ×ˢ Finset.range 6) := by
    intro x hx
    rw [List.mem_toFinset, List.mem_map] at hx
    obtain ⟨p, hp, rfl⟩ := hx
    obtain ⟨hr, hg, hb⟩ := h p hp
    simp only [quantColor, Finset.mem_product, Finset.mem_range]
    exact ⟨by omega, by omega, by omega⟩
  have hcard : colorMapSize data ≤ 216 := by
    unfold colorMapSize
    calc (data.map quantColor).toFinset.card
        ≤ (Finset.range 6 ×ˢ (Finset.range 6 ×ˢ Finset.range 6)).card :=
          Finset.card_le_card hsub
      _ = 216 := by simp [Finset.card_product]
  have hq : (colorMapSize data : ℚ) ≤ 216 := by exact_mod_cast hcard
  have htd : (colorMapSize data : ℚ) / 256 * 100 ≤ 84.375 := by
    rw [div_mul_eq_mul_div, div_le_iff (by norm_num : (0 : ℚ) < 256)]
    linarith
  refine ⟨hcard, ?_, ?_, ?_⟩
  · show min 256 (colorMapSize data) = colorMapSize data
    exact min_eq_right (by omega)
  · show min 100 ((colorMapSize data : ℚ) / 256 * 100) =
      (colorMapSize data : ℚ) / 256 * 100
    exact min_eq_right (by linarith)
  · show min 100 ((colorMapSize data : ℚ) / 256 * 100) ≤ 84.375
    rw [min_eq_right (by linarith)]
    exact htd

/-- Witness for C10 at a one-pixel black image. -/
theorem C10_quantized_color_bound_witness :
    (∀ p ∈ [({ r := 0, g := 0, b := 0 } : Pixel)],
      p.r ≤ 255 ∧ p.g ≤ 255 ∧ p.b ≤ 255) ∧
    (colorMapSize [({ r := 0, g := 0, b := 0 } : Pixel)] ≤ 216 ∧
    (onloadProfile [({ r := 0, g := 0, b := 0 } : Pixel)]).colorCount =
      colorMapSize [({ r := 0, g := 0, b := 0 } : Pixel)] ∧
    (onloadProfile [({ r := 0, g := 0, b := 0 } : Pixel)]).textDensity =
      (colorMapSize [({ r := 0, g := 0, b := 0 } : Pixel)] : ℚ) / 256 * 100 ∧
    (onloadProfile [({ r := 0, g := 0, b := 0 } : Pixel)]).textDensity ≤ 84.375) :=
  ⟨by decide, C10_quantized_color_bound [{ r := 0, g := 0, b := 0 }] (by decide)⟩

